import Mathlib

/-!
Verification of the real-time voice/text session controller of jarvis-ui
(`src/hooks/useJarvis.ts` and its richer variant carrying task lists).

The controller is shallowly embedded: the React refs and state hooks become
fields of `ControllerState`; each event handler (`ws.onmessage`, the recorder
`onstop` callback, the barge-in branch of `startInterruptVAD`,
`sendTextMessage`, `connect`, `disconnect`) becomes a pure function from a
state to a new state together with a list of observable side effects
(frames sent on the socket, playback-engine calls, console logging).
`Date.now()` is modelled by a logical clock field that each id generation
consumes, and the JS `JSON.parse` call, which throws on malformed input, is
modelled by the handler receiving a pre-decoded `Option ServerFrame` and
raising `Except.error` when decoding failed.
-/

namespace Jarvis

/-- The `JarvisStatus` union type of the hook. -/
inductive JarvisStatus
  | disconnected
  | idle
  | listening
  | processing
  | speaking
deriving DecidableEq, Repr

/-- Status field of a `Task`: the string union in the source. -/
inductive TaskStatus
  | queued
  | running
  | complete
  | failed
deriving DecidableEq, Repr

/-- The `Task` interface. -/
structure Task where
  id : String
  description : String
  status : TaskStatus
deriving DecidableEq, Repr

/-- The `source` field of a `Message`. -/
inductive MsgSource
  | user
  | assistant
deriving DecidableEq, Repr

/-- The `Message` interface; `tasks` is the optional field attaching the
turn's task list to the message. -/
structure Message where
  id : String
  source : MsgSource
  text : String
  tasks : Option (List Task)
deriving DecidableEq, Repr

/-- WebSocket `readyState` values. -/
inductive SocketReady
  | connecting
  | opened
  | closing
  | closed
deriving DecidableEq, Repr

/-- Inbound text control frames after JSON decoding, keyed by the `type`
discriminator.  `unknown` covers any `type` the switch has no case for;
optional payload fields that the handler tests for truthiness are `Option`s. -/
inductive ServerFrame
  | audioFormat (sampleRate : Option Nat)
  | transcript (text : String)
  | assistantStart
  | token (text : String)
  | taskQueue (tasks : Option (List Task))
  | taskUpdate (taskId : Option String) (status : TaskStatus)
  | done (assistantText : String)
  | unknown (ty : String)
deriving DecidableEq, Repr

/-- Outbound text control frames. -/
inductive OutFrame
  | startFrame (sessionId filename : String)
  | textInput (text : String)
  | interrupt
deriving DecidableEq, Repr

/-- Observable side effects of one handler invocation, in program order:
frames written to the socket, playback-engine calls (`destroy`, `feed`),
the binary upload of a finished recording, the barge-in VAD loop being
started or cancelled, and console logging.  Playback engines are identified
by the generation number under which they were created. -/
inductive Eff
  | sendFrame (f : OutFrame)
  | sendAudio (size : Nat)
  | destroyPlayer (gen : Nat)
  | feed (gen : Nat) (chunk : List Nat)
  | startVAD
  | stopVAD
  | logLine (s : String)
deriving DecidableEq, Repr

/-- Raw data delivered to `ws.onmessage`: a text frame (already JSON-decoded,
`none` when `JSON.parse` would throw on it) or a binary `ArrayBuffer`. -/
inductive WireData
  | textFrame (parsed : Option ServerFrame)
  | binary (chunk : List Nat)
deriving DecidableEq, Repr

/-- The mutable state of one `useJarvis` controller instance: the React
state hooks (`status`, `messages`, `tasks`) and the refs
(`streamingIdRef`, `playerRef`, `socketRef`, `currentSampleRate`,
`sessionIdRef`).  `nextPlayerGen` supplies fresh generation numbers for
`new PCMPlayer(...)`; `socketsCreated` counts `new WebSocket(...)`
constructions; `clock` models `Date.now()` for id generation. -/
structure ControllerState where
  status : JarvisStatus
  messages : List Message
  tasks : List Task
  streamingId : Option String
  player : Option Nat
  nextPlayerGen : Nat
  currentSampleRate : Nat
  socket : Option SocketReady
  socketsCreated : Nat
  sessionId : Option String
  clock : Nat
deriving DecidableEq, Repr

/-- Initial state of a freshly mounted hook with no external session id. -/
def initState : ControllerState :=
  { status := .disconnected
    messages := []
    tasks := []
    streamingId := none
    player := none
    nextPlayerGen := 0
    currentSampleRate := 24000
    socket := none
    socketsCreated := 0
    sessionId := none
    clock := 0 }

/-- The template-literal id `${sessionIdRef.current}-${Date.now()}`
(JS renders a null ref as the string "null"). -/
def freshId (s : ControllerState) : String :=
  s.sessionId.getD "null" ++ "-" ++ toString s.clock

/-- `initAudio(sampleRate)`: reuse the player if present at the same rate,
otherwise destroy any existing player and construct a fresh one at the new
rate. -/
def initAudio (s : ControllerState) (rate : Nat) : ControllerState × List Eff :=
  if s.player.isSome ∧ s.currentSampleRate = rate then (s, [])
  else
    let destroyEffs := match s.player with
      | some g => [Eff.destroyPlayer g]
      | none => []
    ({ s with player := some s.nextPlayerGen
              nextPlayerGen := s.nextPlayerGen + 1
              currentSampleRate := rate }, destroyEffs)

/-- The `switch (msg.type)` body of `ws.onmessage` for decoded text frames. -/
def handleFrame (s : ControllerState) : ServerFrame → ControllerState × List Eff
  | .audioFormat sr =>
    match sr with
    | some r =>
      if r ≠ 0 ∧ (r ≠ s.currentSampleRate ∨ s.player = none) then initAudio s r
      else (s, [])
    | none => (s, [])
  | .transcript t =>
    ({ s with messages := s.messages ++ [⟨freshId s, .user, t, none⟩]
              clock := s.clock + 1 }, [])
  | .assistantStart =>
    let nid := freshId s
    ({ s with status := .speaking
              streamingId := some nid
              messages := s.messages ++ [⟨nid, .assistant, "", none⟩]
              clock := s.clock + 1 }, [Eff.startVAD])
  | .token t =>
    match s.streamingId with
    | some i =>
      ({ s with messages := s.messages.map fun m =>
          if m.id = i then { m with text := m.text ++ t } else m }, [])
    | none => (s, [])
  | .taskQueue ts =>
    let tl := ts.getD []
    let s1 := { s with tasks := tl }
    match s.streamingId with
    | some i =>
      ({ s1 with messages := s1.messages.map fun m =>
          if m.id = i then { m with tasks := some tl } else m }, [])
    | none => (s1, [])
  | .taskUpdate tid st =>
    match tid with
    | some i =>
      let upd : Task → Task := fun t =>
        if t.id = i then { t with status := st } else t
      let s1 := { s with tasks := s.tasks.map upd }
      match s1.streamingId with
      | some mid =>
        ({ s1 with messages := s1.messages.map (fun m =>
            if m.id = mid ∧ m.tasks.isSome then
              { m with tasks := some ((m.tasks.getD []).map upd) }
            else m) }, [])
      | none => (s1, [])
    | none => (s, [])
  | .done txt =>
    let s1 : ControllerState :=
      match s.streamingId with
      | some i =>
        { s with messages := s.messages.map (fun m =>
            if m.id = i then { m with text := txt } else m),
                 streamingId := none }
      | none => s
    ({ s1 with status := .idle, tasks := [] }, [Eff.stopVAD])
  | .unknown _ => (s, [])

/-- The binary branch of `ws.onmessage`: lazily re-init the playback engine
at the last known sample rate, then `playerRef.current?.feed(data)`. -/
def handleBinary (s : ControllerState) (chunk : List Nat) :
    ControllerState × List Eff :=
  let (s1, effs) :=
    if s.player = none then initAudio s s.currentSampleRate else (s, [])
  match s1.player with
  | some g => (s1, effs ++ [Eff.feed g chunk])
  | none => (s1, effs)

/-- The whole `ws.onmessage` handler.  A malformed text frame makes the
unguarded `JSON.parse(e.data)` throw, which the handler does not catch:
modelled as `Except.error ()`. -/
def handleMessage (s : ControllerState) :
    WireData → Except Unit (ControllerState × List Eff)
  | .textFrame none => .error ()
  | .textFrame (some f) => .ok (handleFrame s f)
  | .binary chunk => .ok (handleBinary s chunk)

/-- The interrupt branch of the `startInterruptVAD` loop, executed when the
volume threshold detects barge-in: destroy the playback engine, send one
`interrupt` frame through the optional-chained socket, cancel the loop and
return to idle. -/
def bargeInStep (s : ControllerState) : ControllerState × List Eff :=
  let (s1, dEffs) :=
    match s.player with
    | some g => ({ s with player := none }, [Eff.destroyPlayer g])
    | none => (s, [])
  let sendEffs := if s.socket.isSome then [Eff.sendFrame .interrupt] else []
  ({ s1 with status := .idle }, dEffs ++ sendEffs ++ [Eff.stopVAD])

/-- The `recorder.onstop` callback installed by `startRecording`, applied to
the size of the assembled blob: blobs of more than 1000 bytes are uploaded
when the socket is open, smaller ones are discarded with a log line and a
return to idle. -/
def recorderOnStop (s : ControllerState) (blobSize : Nat) :
    ControllerState × List Eff :=
  if blobSize > 1000 then
    if s.socket = some .opened then
      ({ s with status := .processing }, [Eff.sendAudio blobSize])
    else (s, [])
  else
    ({ s with status := .idle }, [Eff.logLine "Recording too short. Back to idle."])

/-- `sendTextMessage(text)`: guarded only on
`socketRef.current?.readyState === WebSocket.OPEN`. -/
def sendTextMessage (s : ControllerState) (text : String) :
    ControllerState × List Eff :=
  if s.socket = some .opened then
    ({ s with messages := s.messages ++
                [⟨"msg-" ++ toString s.clock, .user, text, none⟩]
              status := .processing
              clock := s.clock + 1 },
     [Eff.sendFrame (.textInput text)])
  else
    (s, [Eff.logLine "WebSocket is not open. Cannot send message."])

/-- `connect()`: the re-entry guard returns early only when the existing
socket is already OPEN; otherwise audio is initialised, the session id is
lazily generated, and a new `WebSocket` is constructed (readyState
CONNECTING) and stored in `socketRef`. -/
def connect (s : ControllerState) : ControllerState × List Eff :=
  if s.socket = some .opened then (s, [])
  else
    let (s1, effs) := initAudio s 24000
    let s2 :=
      match s1.sessionId with
      | some _ => s1
      | none => { s1 with sessionId := some ("jarvis-session-" ++ toString s1.clock)
                          clock := s1.clock + 1 }
    ({ s2 with socket := some .connecting
               socketsCreated := s2.socketsCreated + 1 }, effs)

/-- `disconnect()`: close the socket, cancel the VAD loops, destroy the
playback engine, and report `disconnected`. -/
def disconnect (s : ControllerState) : ControllerState × List Eff :=
  let socket1 := s.socket.map fun st =>
    match st with
    | .closed => SocketReady.closed
    | _ => SocketReady.closing
  let (s1, dEffs) :=
    match s.player with
    | some g => ({ s with player := none }, [Eff.destroyPlayer g])
    | none => (s, [])
  ({ s1 with socket := socket1, status := .disconnected },
   [Eff.stopVAD] ++ dEffs)

/-- Events the controller can process: an inbound wire message, the barge-in
VAD firing, the recorder finishing, and the public API calls. -/
inductive Evt
  | wire (d : WireData)
  | bargeIn
  | recorderStop (blobSize : Nat)
  | callSendText (text : String)
  | callConnect
  | callDisconnect
deriving DecidableEq, Repr

/-- Host-level dispatch of one event.  An exception escaping `ws.onmessage`
(the malformed-JSON case) is dropped by the host event loop: the state is
left unchanged and no effect is performed. -/
def dispatch (s : ControllerState) : Evt → ControllerState × List Eff
  | .wire d =>
    match handleMessage s d with
    | .ok r => r
    | .error _ => (s, [])
  | .bargeIn => bargeInStep s
  | .recorderStop n => recorderOnStop s n
  | .callSendText t => sendTextMessage s t
  | .callConnect => connect s
  | .callDisconnect => disconnect s

/-- Run a sequence of events in delivery order, accumulating effects. -/
def run (s : ControllerState) : List Evt → ControllerState × List Eff
  | [] => (s, [])
  | e :: es =>
    let r1 := dispatch s e
    let r2 := run r1.1 es
    (r2.1, r1.2 ++ r2.2)

/-- Concatenation of token payloads in arrival order. -/
def concatAll : List String → String
  | [] => ""
  | t :: ts => t ++ concatAll ts

/-- Shorthand for the wire event carrying one decoded text frame. -/
def wireText (f : ServerFrame) : Evt := .wire (.textFrame (some f))

/-- A connected controller resuming session "s1", right after the `start`
handshake of the protocol scenario. -/
def scenarioConnected : ControllerState :=
  { initState with socket := some .opened, sessionId := some "s1", status := .idle }

/-- A controller that is mid-recording with an open socket. -/
def listeningOpen : ControllerState :=
  { initState with socket := some .opened, status := .listening }

/-- A controller whose first connect() is still in flight: the socket exists
but its readyState is CONNECTING. -/
def connectingState : ControllerState :=
  { initState with socket := some .connecting, socketsCreated := 1 }

/-- Position of a status in the progression queued → running →
(complete | failed). -/
def rank : TaskStatus → Nat
  | .queued => 0
  | .running => 1
  | .complete => 2
  | .failed => 2

/-- One task evolved without changing identity and without regressing. -/
def TaskProgress (a b : Task) : Prop :=
  a.id = b.id ∧ a.description = b.description ∧ rank a.status ≤ rank b.status

/-- Lift `TaskProgress` to the optional task list attached to a message. -/
def TasksProgress : Option (List Task) → Option (List Task) → Prop
  | none, none => True
  | some l1, some l2 => List.Forall₂ TaskProgress l1 l2
  | _, _ => False

/-- One message evolved with the same identity and text and a
non-regressing task list. -/
def MsgProgress (a b : Message) : Prop :=
  a.id = b.id ∧ a.text = b.text ∧ TasksProgress a.tasks b.tasks

/-- A mid-turn controller with one running task, both live and attached to
the streaming message. -/
def monoState : ControllerState :=
  { scenarioConnected with
      tasks := [⟨"t1", "search", .running⟩]
      streamingId := some "s1-0"
      messages := [⟨"s1-0", .assistant, "",
        some [⟨"t1", "search", .running⟩]⟩] }

/-- Generation `g` can never be fed again: it is not the current player and
all future generations are strictly larger. -/
def retired (g : Nat) (s : ControllerState) : Prop :=
  s.player ≠ some g ∧ g < s.nextPlayerGen

/-- No effect in the list feeds the engine of generation `g`. -/
def noFeedOf (g : Nat) (effs : List Eff) : Prop :=
  ∀ e ∈ effs, ∀ b, e ≠ Eff.feed g b

/-- A speaking controller mid-playback: engine generation 0 live,
socket open. -/
def speakingState : ControllerState :=
  { initState with status := .speaking
                   player := some 0
                   nextPlayerGen := 1
                   socket := some .opened
                   sessionId := some "s1" }

/-! ### Helper lemmas -/

theorem dispatch_token_streaming (s : ControllerState) (i t : String)
    (h : s.streamingId = some i) :
    dispatch s (wireText (.token t)) =
      ({ s with messages := s.messages.map fun m =>
          if m.id = i then { m with text := m.text ++ t } else m }, []) := by
  simp [dispatch, wireText, handleMessage, handleFrame, h]

theorem run_tokens_getLast (ts : List String) (s : ControllerState)
    (i : String) (m : Message)
    (hsid : s.streamingId = some i)
    (hlast : s.messages.getLast? = some m)
    (hid : m.id = i) :
    (run s (ts.map fun t => wireText (.token t))).1.streamingId = some i ∧
    (run s (ts.map fun t => wireText (.token t))).1.messages.getLast? =
      some { m with text := m.text ++ concatAll ts } := by
  induction ts generalizing s m with
  | nil =>
    simp only [List.map_nil, run, concatAll, String.append_empty]
    exact ⟨hsid, hlast⟩
  | cons t ts ih =>
    simp only [List.map_cons, run]
    rw [dispatch_token_streaming s i t hsid]
    have hlast1 :
        (s.messages.map (fun m =>
          if m.id = i then { m with text := m.text ++ t } else m)).getLast? =
        some { m with text := m.text ++ t } := by
      rw [List.getLast?_map, hlast]
      simp [hid]
    have := ih ({ s with messages := s.messages.map fun m =>
        if m.id = i then { m with text := m.text ++ t } else m })
      { m with text := m.text ++ t } hsid hlast1 hid
    simpa [concatAll, String.append_assoc] using this

/-! ### Claims -/

/-- Claim C1: in every run where `assistant_start` creates the active-stream
message with empty text and a sequence of `token` events is processed before
the matching `done`, the active-stream message (the last message in the
store, whose id is the active-stream pointer) ends with text equal to the
concatenation of the token payloads in arrival order. -/
theorem stream_text_is_token_concat (s : ControllerState) (ts : List String) :
    (run (dispatch s (wireText .assistantStart)).1
        (ts.map fun t => wireText (.token t))).1.streamingId =
      some (freshId s) ∧
    (run (dispatch s (wireText .assistantStart)).1
        (ts.map fun t => wireText (.token t))).1.messages.getLast? =
      some ⟨freshId s, .assistant, concatAll ts, none⟩ := by
  have hstep : dispatch s (wireText .assistantStart) =
      ({ s with status := .speaking
                streamingId := some (freshId s)
                messages := s.messages ++ [⟨freshId s, .assistant, "", none⟩]
                clock := s.clock + 1 }, [Eff.startVAD]) := by
    simp [dispatch, wireText, handleMessage, handleFrame]
  rw [hstep]
  have h := run_tokens_getLast ts
    ({ s with status := .speaking
              streamingId := some (freshId s)
              messages := s.messages ++ [⟨freshId s, .assistant, "", none⟩]
              clock := s.clock + 1 })
    (freshId s) ⟨freshId s, .assistant, "", none⟩ rfl
    (by simp [List.getLast?_concat]) rfl
  simpa [String.empty_append] using h

/-- Claim C2: processing `done` replaces (never appends to) the text of every
message matching the active-stream pointer with the authoritative
`assistant_text` payload, regardless of what tokens had accumulated. -/
theorem done_replaces_streaming_text (s : ControllerState) (i txt : String)
    (h : s.streamingId = some i) :
    ∀ m ∈ (dispatch s (wireText (.done txt))).1.messages,
      m.id = i → m.text = txt := by
  intro m hm hid
  simp only [dispatch, wireText, handleMessage, handleFrame, h] at hm
  rw [List.mem_map] at hm
  obtain ⟨a, _, rfl⟩ := hm
  by_cases hc : a.id = i
  · simp [hc]
  · simp only [if_neg hc] at hid ⊢
    exact absurd hid hc

/-- Witness for C2: the spec scenario `assistant_start`, `token "Hel"`,
`token "lo"`, `done "Hello there"` leaves exactly one assistant message,
whose text is "Hello there" and not "Hello". -/
theorem done_replaces_streaming_text_witness :
    ((run scenarioConnected [wireText .assistantStart, wireText (.token "Hel"),
        wireText (.token "lo")]).1.streamingId = some "s1-0") ∧
    (∀ m ∈ (dispatch (run scenarioConnected [wireText .assistantStart,
        wireText (.token "Hel"), wireText (.token "lo")]).1
        (wireText (.done "Hello there"))).1.messages,
      m.id = "s1-0" → m.text = "Hello there") ∧
    ((dispatch (run scenarioConnected [wireText .assistantStart,
        wireText (.token "Hel"), wireText (.token "lo")]).1
        (wireText (.done "Hello there"))).1.messages =
      [⟨"s1-0", .assistant, "Hello there", none⟩]) :=
  ⟨by decide,
   done_replaces_streaming_text _ "s1-0" "Hello there" (by decide),
   by decide⟩

/-- Claim C7: after a `done` event is processed the active-stream pointer is
null, and a `token` event arriving with no active stream is a no-op: it
returns normally with the state unchanged and performs no effect. -/
theorem done_clears_pointer_token_noop (s s' : ControllerState)
    (txt t : String)
    (h : s' = (dispatch s (wireText (.done txt))).1) :
    s'.streamingId = none ∧
    dispatch s' (wireText (.token t)) = (s', []) := by
  have hnone : s'.streamingId = none := by
    subst h
    cases hs : s.streamingId <;>
      simp [dispatch, wireText, handleMessage, handleFrame, hs]
  exact ⟨hnone, by simp [dispatch, wireText, handleMessage, handleFrame, hnone]⟩

/-- Witness for C7 at a concrete post-`done` state. -/
theorem done_clears_pointer_token_noop_witness :
    (dispatch scenarioConnected (wireText (.done "x"))).1.streamingId = none ∧
    dispatch (dispatch scenarioConnected (wireText (.done "x"))).1
        (wireText (.token "a")) =
      ((dispatch scenarioConnected (wireText (.done "x"))).1, []) :=
  done_clears_pointer_token_noop scenarioConnected _ "x" "a" rfl

/-- Counterexample for C4: a malformed text frame is not "ignored and
logged" — the unguarded JSON.parse throws out of ws.onmessage
(`Except.error`), and an unknown-`type` frame is dropped with an empty
effect list, i.e. without the recoverable-condition log the claim
requires. -/
theorem malformed_frame_throws_cex :
    handleMessage initState (.textFrame none) = .error () ∧
    handleMessage initState (.textFrame (some (.unknown "mystery"))) =
      .ok (initState, []) :=
  ⟨rfl, rfl⟩

/-- Claim C4 amended: an unknown-`type` frame is silently ignored (state
unchanged, no effects, in particular no log line); a malformed-JSON frame
makes the handler throw out of `ws.onmessage`, and since the host drops the
uncaught exception the status, message list and task list are still
unchanged. -/
theorem unknown_ignored_malformed_uncaught (s : ControllerState) (u : String) :
    handleMessage s (.textFrame (some (.unknown u))) = .ok (s, []) ∧
    handleMessage s (.textFrame none) = .error () ∧
    dispatch s (.wire (.textFrame none)) = (s, []) :=
  ⟨rfl, rfl, rfl⟩

/-- Counterexample for C5: while `status` is listening and the socket is
open, `sendTextMessage "hi"` is not rejected — it sends the `text_input`
frame, appends a user message, and switches status to processing. -/
theorem sendText_while_listening_cex :
    (sendTextMessage listeningOpen "hi").2 =
      [Eff.sendFrame (.textInput "hi")] ∧
    (sendTextMessage listeningOpen "hi").1.messages =
      [⟨"msg-0", .user, "hi", none⟩] ∧
    (sendTextMessage listeningOpen "hi").1.status = .processing := by
  decide

/-- Claim C5 amended: `sendTextMessage` is gated only on the transport being
OPEN; called while listening or speaking with the socket open it sends the
`text_input` frame, appends the optimistic user message, and sets status to
processing — there is no controller-side defensive status check. -/
theorem sendText_open_socket_sends (s : ControllerState) (t : String)
    (_hst : s.status = .listening ∨ s.status = .speaking)
    (h : s.socket = some .opened) :
    sendTextMessage s t =
      ({ s with messages := s.messages ++
                  [⟨"msg-" ++ toString s.clock, .user, t, none⟩]
                status := .processing
                clock := s.clock + 1 },
       [Eff.sendFrame (.textInput t)]) := by
  simp [sendTextMessage, h]

/-- Witness for the amended C5 at the listening state. -/
theorem sendText_open_socket_sends_witness :
    (listeningOpen.status = .listening ∨ listeningOpen.status = .speaking) ∧
    sendTextMessage listeningOpen "hi" =
      ({ listeningOpen with messages := [⟨"msg-0", .user, "hi", none⟩]
                            status := .processing
                            clock := 1 },
       [Eff.sendFrame (.textInput "hi")]) :=
  ⟨Or.inl rfl, sendText_open_socket_sends listeningOpen "hi" (Or.inl rfl) rfl⟩

/-- Claim C10: with the transport absent or not open, `sendTextMessage` is a
complete no-op apart from the error log: the state (status, messages,
everything) is returned unchanged, no frame is sent, and the function
returns normally. -/
theorem sendText_not_open_noop (s : ControllerState) (t : String)
    (h : s.socket ≠ some .opened) :
    sendTextMessage s t =
      (s, [Eff.logLine "WebSocket is not open. Cannot send message."]) := by
  simp [sendTextMessage, h]

/-- Witness for C10 on a disconnected controller. -/
theorem sendText_not_open_noop_witness :
    initState.socket ≠ some SocketReady.opened ∧
    sendTextMessage initState "hi" =
      (initState,
       [Eff.logLine "WebSocket is not open. Cannot send message."]) :=
  ⟨by decide, sendText_not_open_noop initState "hi" (by decide)⟩

/-- Counterexample for C8: calling `connect()` while a previous connect is
in flight (socket CONNECTING, not yet OPEN) is not a no-op — a second
WebSocket is constructed and replaces the first in `socketRef`. -/
theorem connect_while_connecting_cex :
    (connect connectingState).1.socketsCreated =
      connectingState.socketsCreated + 1 ∧
    (connect connectingState).1 ≠ connectingState := by
  decide

/-- Claim C8 amended: the re-entry guard only fires when the existing socket
is already OPEN; in that case a second `connect()` is a complete no-op
(state unchanged, no effects, no new transport). -/
theorem connect_noop_when_open (s : ControllerState)
    (h : s.socket = some .opened) :
    connect s = (s, []) := by
  simp [connect, h]

/-- Witness for the amended C8 on an open connection. -/
theorem connect_noop_when_open_witness :
    scenarioConnected.socket = some SocketReady.opened ∧
    connect scenarioConnected = (scenarioConnected, []) :=
  ⟨rfl, connect_noop_when_open scenarioConnected rfl⟩

/-- Claim C9: a finalized recording whose blob is at or below the 1000-byte
minimum-size threshold is discarded: the onstop callback performs no binary
upload and the status returns to idle. -/
theorem short_recording_no_upload (s : ControllerState) (n : Nat)
    (h : n ≤ 1000) :
    (recorderOnStop s n).1.status = .idle ∧
    ∀ e ∈ (recorderOnStop s n).2, ∀ k, e ≠ Eff.sendAudio k := by
  have h2 : ¬ (n > 1000) := by omega
  simp [recorderOnStop, h2]

/-- Witness for C9 with a 5-byte blob. -/
theorem short_recording_no_upload_witness :
    (5 ≤ 1000) ∧
    (recorderOnStop listeningOpen 5).1.status = .idle ∧
    ∀ e ∈ (recorderOnStop listeningOpen 5).2, ∀ k, e ≠ Eff.sendAudio k := by
  refine ⟨by decide, ?_⟩
  exact short_recording_no_upload listeningOpen 5 (by decide)

/-! ### Task-status monotonicity (C3)

The `task_update` handler applies the status carried by the event verbatim,
with no guard comparing it against the task's current status, so whether
observed statuses are monotonic depends entirely on the inbound sequence. -/

theorem taskProgress_refl (t : Task) : TaskProgress t t :=
  ⟨rfl, rfl, le_refl _⟩

theorem tasksProgress_refl (o : Option (List Task)) : TasksProgress o o := by
  cases o with
  | none => trivial
  | some l =>
    exact List.forall₂_same.mpr fun t _ => taskProgress_refl t

theorem msgProgress_refl (m : Message) : MsgProgress m m :=
  ⟨rfl, rfl, tasksProgress_refl m.tasks⟩

theorem forall₂_map_self {α : Type} (r : α → α → Prop) (f : α → α)
    (l : List α) (h : ∀ x ∈ l, r x (f x)) : List.Forall₂ r l (l.map f) := by
  rw [List.forall₂_map_right_iff]
  exact List.forall₂_same.mpr h

theorem taskProgress_upd (tid : String) (st : TaskStatus) (t : Task)
    (h : t.id = tid → rank t.status ≤ rank st) :
    TaskProgress t (if t.id = tid then { t with status := st } else t) := by
  by_cases hc : t.id = tid
  · simp only [if_pos hc]
    exact ⟨rfl, rfl, h hc⟩
  · simp only [if_neg hc]
    exact taskProgress_refl t

/-- Counterexample for C3: the code applies `task_update` statuses verbatim;
after queue [t1 queued], update running, update complete, a further
`task_update` back to queued is observed in the live task list — t1
regresses from complete to queued. -/
theorem task_status_regression_cex :
    ((run scenarioConnected
        [wireText (.taskQueue (some [⟨"t1", "search", .queued⟩])),
         wireText (.taskUpdate (some "t1") .running),
         wireText (.taskUpdate (some "t1") .complete)]).1.tasks =
      [⟨"t1", "search", .complete⟩]) ∧
    ((run scenarioConnected
        [wireText (.taskQueue (some [⟨"t1", "search", .queued⟩])),
         wireText (.taskUpdate (some "t1") .running),
         wireText (.taskUpdate (some "t1") .complete),
         wireText (.taskUpdate (some "t1") .queued)]).1.tasks =
      [⟨"t1", "search", .queued⟩]) := by
  decide

/-- Claim C3 amended: the `task_update` handler has no monotonicity guard
and writes the event's status verbatim; task statuses therefore only move
forward when the inbound updates do.  Whenever the update's status does not
rank below the current status of every matching task (live or attached to a
message), processing the event moves every task — in the live list and in
every message's attached list — forward (or leaves it in place), never
backward, and preserves ids, descriptions and message texts. -/
theorem task_update_monotone (s : ControllerState) (tid : String)
    (st : TaskStatus)
    (hl : ∀ t ∈ s.tasks, t.id = tid → rank t.status ≤ rank st)
    (hm : ∀ m ∈ s.messages, ∀ l, m.tasks = some l →
      ∀ t ∈ l, t.id = tid → rank t.status ≤ rank st) :
    List.Forall₂ TaskProgress s.tasks
      (dispatch s (wireText (.taskUpdate (some tid) st))).1.tasks ∧
    List.Forall₂ MsgProgress s.messages
      (dispatch s (wireText (.taskUpdate (some tid) st))).1.messages := by
  cases hsid : s.streamingId with
  | none =>
    simp only [dispatch, wireText, handleMessage, handleFrame, hsid]
    constructor
    · exact forall₂_map_self _ _ _ fun t ht => taskProgress_upd tid st t (hl t ht)
    · exact List.forall₂_same.mpr fun m _ => msgProgress_refl m
  | some mid =>
    simp only [dispatch, wireText, handleMessage, handleFrame, hsid]
    constructor
    · exact forall₂_map_self _ _ _ fun t ht => taskProgress_upd tid st t (hl t ht)
    · refine forall₂_map_self _ _ _ fun m hmem => ?_
      by_cases hc : m.id = mid ∧ m.tasks.isSome
      · simp only [if_pos hc]
        obtain ⟨l, htl⟩ := Option.isSome_iff_exists.mp hc.2
        refine ⟨rfl, rfl, ?_⟩
        rw [htl]
        simp only [TasksProgress, htl, Option.getD_some]
        exact forall₂_map_self _ _ _ fun t ht =>
          taskProgress_upd tid st t (hm m hmem l htl t ht)
      · simp only [if_neg hc]
        exact msgProgress_refl m

/-- Witness for the amended C3: a running task updated to complete moves
forward in both the live list and the attached list. -/
theorem task_update_monotone_witness :
    (∀ t ∈ monoState.tasks, t.id = "t1" →
      rank t.status ≤ rank TaskStatus.complete) ∧
    (List.Forall₂ TaskProgress monoState.tasks
      (dispatch monoState
        (wireText (.taskUpdate (some "t1") .complete))).1.tasks ∧
     List.Forall₂ MsgProgress monoState.messages
      (dispatch monoState
        (wireText (.taskUpdate (some "t1") .complete))).1.messages) :=
  ⟨by decide,
   task_update_monotone monoState "t1" .complete (by decide) (by decide)⟩

/-! ### Barge-in teardown (C6)

Once the playback engine of generation `g` is destroyed, `playerRef` is
null and new engines get strictly larger generation numbers, so no later
event can ever `feed` the destroyed engine again. -/

theorem noFeedOf_nil (g : Nat) : noFeedOf g [] := by
  intro e he
  simp at he

theorem noFeedOf_append (g : Nat) (l1 l2 : List Eff)
    (h1 : noFeedOf g l1) (h2 : noFeedOf g l2) : noFeedOf g (l1 ++ l2) := by
  intro e he b
  rcases List.mem_append.mp he with h | h
  · exact h1 e h b
  · exact h2 e h b

theorem initAudio_retired (g : Nat) (s : ControllerState) (rate : Nat)
    (h : retired g s) :
    retired g (initAudio s rate).1 ∧ noFeedOf g (initAudio s rate).2 := by
  obtain ⟨h1, h2⟩ := h
  unfold initAudio
  by_cases hc : s.player.isSome ∧ s.currentSampleRate = rate
  · rw [if_pos hc]
    exact ⟨⟨h1, h2⟩, noFeedOf_nil g⟩
  · rw [if_neg hc]
    refine ⟨⟨?_, ?_⟩, ?_⟩
    · intro hcontra
      have : s.nextPlayerGen = g := by
        simpa using hcontra
      omega
    · simpa using Nat.lt_succ_of_lt h2
    · cases hp : s.player <;> simp [noFeedOf]

theorem handleFrame_retired (g : Nat) (s : ControllerState) (f : ServerFrame)
    (h : retired g s) :
    retired g (handleFrame s f).1 ∧ noFeedOf g (handleFrame s f).2 := by
  obtain ⟨h1, h2⟩ := h
  cases f with
  | audioFormat sr =>
    cases sr with
    | none => exact ⟨⟨h1, h2⟩, noFeedOf_nil g⟩
    | some r =>
      by_cases hc : r ≠ 0 ∧ (r ≠ s.currentSampleRate ∨ s.player = none)
      · simp only [handleFrame, if_pos hc]
        exact initAudio_retired g s r ⟨h1, h2⟩
      · simp only [handleFrame, if_neg hc]
        exact ⟨⟨h1, h2⟩, noFeedOf_nil g⟩
  | transcript t => exact ⟨⟨h1, h2⟩, noFeedOf_nil g⟩
  | assistantStart =>
    exact ⟨⟨h1, h2⟩, by simp [handleFrame, noFeedOf]⟩
  | token t =>
    cases hs : s.streamingId <;> simp only [handleFrame, hs] <;>
      exact ⟨⟨h1, h2⟩, noFeedOf_nil g⟩
  | taskQueue ts =>
    cases hs : s.streamingId <;> simp only [handleFrame, hs] <;>
      exact ⟨⟨h1, h2⟩, noFeedOf_nil g⟩
  | taskUpdate tid st =>
    cases tid with
    | none => exact ⟨⟨h1, h2⟩, noFeedOf_nil g⟩
    | some i =>
      cases hs : s.streamingId <;> simp only [handleFrame, hs] <;>
        exact ⟨⟨h1, h2⟩, noFeedOf_nil g⟩
  | done txt =>
    cases hs : s.streamingId <;> simp only [handleFrame, hs] <;>
      exact ⟨⟨h1, h2⟩, by simp [noFeedOf]⟩
  | unknown ty => exact ⟨⟨h1, h2⟩, noFeedOf_nil g⟩

theorem handleBinary_retired (g : Nat) (s : ControllerState) (chunk : List Nat)
    (h : retired g s) :
    retired g (handleBinary s chunk).1 ∧ noFeedOf g (handleBinary s chunk).2 := by
  obtain ⟨h1, h2⟩ := h
  by_cases hp : s.player = none
  · have hres : handleBinary s chunk =
        ({ s with player := some s.nextPlayerGen
                  nextPlayerGen := s.nextPlayerGen + 1
                  currentSampleRate := s.currentSampleRate },
         [Eff.feed s.nextPlayerGen chunk]) := by
      simp [handleBinary, initAudio, hp]
    rw [hres]
    refine ⟨⟨?_, ?_⟩, ?_⟩
    · show ¬ (some s.nextPlayerGen = some g)
      simp only [Option.some.injEq]
      omega
    · show g < s.nextPlayerGen + 1
      omega
    · intro e he b
      simp only [List.mem_singleton] at he
      subst he
      simp only [ne_eq, Eff.feed.injEq, not_and]
      intro hc _
      omega
  · obtain ⟨g', hg'⟩ := Option.ne_none_iff_exists'.mp hp
    have hg'ne : g' ≠ g := fun hcontra => h1 (hcontra ▸ hg')
    have hres : handleBinary s chunk = (s, [Eff.feed g' chunk]) := by
      simp [handleBinary, hp, hg']
    rw [hres]
    refine ⟨⟨h1, h2⟩, ?_⟩
    intro e he b
    simp only [List.mem_singleton] at he
    subst he
    simp only [ne_eq, Eff.feed.injEq, not_and]
    intro hc _
    exact absurd hc hg'ne

theorem dispatch_retired (g : Nat) (s : ControllerState) (e : Evt)
    (h : retired g s) :
    retired g (dispatch s e).1 ∧ noFeedOf g (dispatch s e).2 := by
  obtain ⟨h1, h2⟩ := h
  cases e with
  | wire d =>
    cases d with
    | textFrame p =>
      cases p with
      | none => exact ⟨⟨h1, h2⟩, noFeedOf_nil g⟩
      | some f =>
        simpa only [dispatch, handleMessage] using
          handleFrame_retired g s f ⟨h1, h2⟩
    | binary chunk =>
      simpa only [dispatch, handleMessage] using
        handleBinary_retired g s chunk ⟨h1, h2⟩
  | bargeIn =>
    cases hp : s.player with
    | none =>
      simp only [dispatch, bargeInStep, hp]
      refine ⟨⟨by simp, h2⟩, ?_⟩
      cases hs : s.socket.isSome <;> simp [hs, noFeedOf]
    | some gp =>
      simp only [dispatch, bargeInStep, hp]
      refine ⟨⟨by simp, h2⟩, ?_⟩
      cases hs : s.socket.isSome <;> simp [hs, noFeedOf]
  | recorderStop n =>
    by_cases hn : n > 1000
    · by_cases hsock : s.socket = some .opened
      · simp only [dispatch, recorderOnStop, if_pos hn, if_pos hsock]
        exact ⟨⟨h1, h2⟩, by simp [noFeedOf]⟩
      · simp only [dispatch, recorderOnStop, if_pos hn, if_neg hsock]
        exact ⟨⟨h1, h2⟩, noFeedOf_nil g⟩
    · simp only [dispatch, recorderOnStop, if_neg hn]
      exact ⟨⟨h1, h2⟩, by simp [noFeedOf]⟩
  | callSendText t =>
    by_cases hsock : s.socket = some .opened
    · simp only [dispatch, sendTextMessage, if_pos hsock]
      exact ⟨⟨h1, h2⟩, by simp [noFeedOf]⟩
    · simp only [dispatch, sendTextMessage, if_neg hsock]
      exact ⟨⟨h1, h2⟩, by simp [noFeedOf]⟩
  | callConnect =>
    by_cases hsock : s.socket = some .opened
    · simp only [dispatch, connect, if_pos hsock]
      exact ⟨⟨h1, h2⟩, noFeedOf_nil g⟩
    · obtain ⟨⟨h3, h4⟩, h5⟩ := initAudio_retired g s 24000 ⟨h1, h2⟩
      cases hsid : (initAudio s 24000).1.sessionId <;>
        simp only [dispatch, connect, if_neg hsock, hsid] <;>
        exact ⟨⟨h3, h4⟩, h5⟩
  | callDisconnect =>
    cases hp : s.player with
    | none =>
      simp only [dispatch, disconnect, hp]
      exact ⟨⟨by simp, h2⟩, by simp [noFeedOf]⟩
    | some gp =>
      simp only [dispatch, disconnect, hp]
      exact ⟨⟨by simp, h2⟩, by simp [noFeedOf]⟩

theorem run_retired (g : Nat) (evts : List Evt) (s : ControllerState)
    (h : retired g s) :
    retired g (run s evts).1 ∧ noFeedOf g (run s evts).2 := by
  induction evts generalizing s with
  | nil => exact ⟨h, noFeedOf_nil g⟩
  | cons e es ih =>
    simp only [run]
    obtain ⟨ha, hb⟩ := dispatch_retired g s e h
    obtain ⟨hc, hd⟩ := ih _ ha
    exact ⟨hc, noFeedOf_append g _ _ hb hd⟩

/-- Claim C6: a barge-in detected while speaking destroys the playback
engine and sends exactly one `interrupt` frame (the step's complete effect
list is destroy, then one interrupt frame, then VAD teardown), and after the
engine of generation `g` is torn down no continuation of the run — over any
sequence of further events, binary audio frames included — ever feeds that
engine again: stale audio of the interrupted turn cannot play. -/
theorem barge_in_one_interrupt_no_stale_feed (s : ControllerState) (g : Nat)
    (evts : List Evt)
    (_hst : s.status = .speaking)
    (hp : s.player = some g)
    (hg : g < s.nextPlayerGen)
    (hsock : s.socket.isSome = true) :
    dispatch s .bargeIn =
      ({ s with player := none, status := .idle },
       [Eff.destroyPlayer g, Eff.sendFrame .interrupt, Eff.stopVAD]) ∧
    noFeedOf g (run (dispatch s .bargeIn).1 evts).2 := by
  have hstep : dispatch s .bargeIn =
      ({ s with player := none, status := .idle },
       [Eff.destroyPlayer g, Eff.sendFrame .interrupt, Eff.stopVAD]) := by
    simp [dispatch, bargeInStep, hp, hsock]
  refine ⟨hstep, ?_⟩
  rw [hstep]
  exact (run_retired g evts _ ⟨by simp, by simpa using hg⟩).2

/-- Witness for C6: barge-in at `speakingState`, followed by a server binary
audio frame, which is decoded by a fresh engine and never by the destroyed
generation 0. -/
theorem barge_in_one_interrupt_no_stale_feed_witness :
    (speakingState.status = .speaking ∧ speakingState.player = some 0 ∧
     0 < speakingState.nextPlayerGen ∧ speakingState.socket.isSome = true) ∧
    (dispatch speakingState .bargeIn =
      ({ speakingState with player := none, status := .idle },
       [Eff.destroyPlayer 0, Eff.sendFrame .interrupt, Eff.stopVAD]) ∧
     noFeedOf 0 (run (dispatch speakingState .bargeIn).1
        [Evt.wire (.binary [1, 2])]).2) :=
  ⟨⟨rfl, rfl, by decide, rfl⟩,
   barge_in_one_interrupt_no_stale_feed speakingState 0
     [Evt.wire (.binary [1, 2])] rfl rfl (by decide) rfl⟩

end Jarvis
